import Mathlib

/-!
# Verification of the recipe-segmentation dashboard (`dashboard_app.py`)

A shallow embedding of the single-script Streamlit dashboard.  The script
loads a CSV into a pandas DataFrame, stringifies the `Cluster` column,
shows per-cluster counts over the full table, filters the table by a
sidebar-selected cluster label (sentinel `All` = no filter), and renders
bar / pie / scatter charts plus notices for missing optional columns.

Modelling choices, each traced to the source:
* A DataFrame is a column-name list plus rows of cells (`Value` =
  string or exact rational; floats in the CSV are modelled as `ℚ`,
  which is adequate because no claim depends on rounding).
* Column access `df[c]` is fallible (`Except`): pandas raises `KeyError`
  when `c` is not a column, which the script never catches.
* Streamlit calls (`st.info`, `st.warning`, `st.error`, `st.write`,
  `st.plotly_chart`, `st.sidebar.dataframe`) become `RenderItem`s
  accumulated in source order; `st.stop` aborts the run with the items
  shown so far.
* `Series.value_counts()` yields the distinct values (first-appearance
  order) stable-sorted by descending count, as pandas does;
  `.sort_index()` re-sorts ascending by value.
-/

/-- A cell of the table: pandas object (string) or numeric value. -/
inductive Value where
  | str (s : String)
  | num (q : ℚ)
deriving DecidableEq, Repr

/-- Python `str()` applied to a cell, as `Cluster.astype(str)` does
(line 24).  The exact digit rendering of numbers is immaterial to every
claim; what matters is that the result is a string. -/
def pyStr : Value → String
  | .str s => s
  | .num q => toString q

/-- Numeric reading of a cell, used by `.mean()` and `.sum()`; the
numeric columns of the CSV hold `num` cells. -/
def valToRat : Value → ℚ
  | .str _ => 0
  | .num q => q

/-- An in-memory pandas DataFrame: named columns and rows of cells
aligned with the column list. -/
structure DataFrame where
  cols : List String
  rows : List (List Value)
deriving DecidableEq, Repr

/-- The cell of row `r` in column `c` (meaningful when `c ∈ cols`). -/
def cellAt (cols : List String) (r : List Value) (c : String) : Value :=
  r.getD (cols.indexOf c) (Value.str "")

/-- `df[c]` for a column name `c`: the column's cells in row order, or
a `KeyError` when the column is absent (pandas raises, the script never
catches). -/
def getCol (df : DataFrame) (c : String) : Except String (List Value) :=
  if c ∈ df.cols then
    .ok (df.rows.map (fun r => cellAt df.cols r c))
  else
    .error ("KeyError: " ++ c)

/-- `Series.value_counts()`: distinct values with multiplicities,
stable-sorted by descending count (pandas default ordering). -/
def valueCounts (l : List Value) : List (Value × ℕ) :=
  List.insertionSort (fun a b => b.2 ≤ a.2) (l.dedup.map (fun v => (v, l.count v)))

/-- `Series.value_counts(normalize=True)`: per-value proportions. -/
def valueCountsNorm (l : List Value) : List (Value × ℚ) :=
  (valueCounts l).map (fun p => (p.1, (p.2 : ℚ) / (l.length : ℚ)))

/-- `Series.value_counts().sort_index()` on a string-valued series:
counts indexed by the distinct values in ascending order (line 36). -/
def countsSortIndex (l : List String) : List (String × ℕ) :=
  (List.insertionSort (fun a b => a ≤ b) l.dedup).map (fun v => (v, l.count v))

/-- `Series.mean()` over a numeric column. -/
def meanCol (vals : List Value) : ℚ :=
  (vals.map valToRat).sum / (vals.length : ℚ)

/-- `Series.sum()` over a numeric column. -/
def sumCol (vals : List Value) : ℚ :=
  (vals.map valToRat).sum

/-- Everything the script can show: text, notices, numbers, tables and
the three chart kinds used. -/
inductive RenderItem where
  | errorMsg (s : String)
  | info (s : String)
  | warning (s : String)
  | text (s : String)
  | sidebarTable (counts : List (String × ℕ))
  | barChartN (title : String) (data : List (String × ℕ))
  | barChartQ (title : String) (data : List (String × ℚ))
  | pieChart (title : String) (data : List (String × ℚ))
  | scatterChart (title : String) (points : List (ℚ × ℚ × String))
  | countsOut (data : List (String × ℕ))
deriving DecidableEq, Repr

/-- Items that are chart or table sections (as opposed to plain text or
notices): used to state that a failed load produces none of them. -/
def isChartOrTable : RenderItem → Bool
  | .sidebarTable _ => true
  | .barChartN _ _ => true
  | .barChartQ _ _ => true
  | .pieChart _ _ => true
  | .scatterChart _ _ => true
  | .countsOut _ => true
  | _ => false

/-- Whether an item list contains the `st.info` notice of the traffic
section. -/
def containsInfo (items : List RenderItem) : Bool :=
  items.any (fun i => match i with | .info _ => true | _ => false)

/-- Whether an item list contains any chart. -/
def containsChart (items : List RenderItem) : Bool :=
  items.any (fun i => match i with
    | .barChartN _ _ => true | .barChartQ _ _ => true
    | .pieChart _ _ => true | .scatterChart _ _ => true | _ => false)

/-! ## The script, section by section -/

/-- Line 22: the fixed CSV path. -/
def csvPath : String := "recipes_clustered_for_dashboard.csv"

/-- The process filesystem, for `pd.read_csv`: paths to parsed tables. -/
abbrev FileSystem : Type := List (String × DataFrame)

/-- `pd.read_csv(path)` (line 16): the parsed table, or
`FileNotFoundError` when the path does not exist. -/
def read_csv (fs : FileSystem) (path : String) : Except String DataFrame :=
  match List.lookup path fs with
  | some df => .ok df
  | none => .error "FileNotFoundError"

/-- The message of `st.error` in `load_data` (line 19). -/
def loadErrMsg (path : String) : String :=
  "Error: The file '" ++ path ++
    "' was not found. Make sure the CSV is in the same folder as this script."

/-- `load_data(path)` (lines 13-20): try `read_csv`; on
`FileNotFoundError`, `st.error(...)` then `st.stop()` — the error value
carries the items shown before the stop.  (`@st.cache_data` memoises
the call within a session; caching is observationally the identity here
and is not modelled.) -/
def load_data (fs : FileSystem) (path : String) :
    Except (List RenderItem) DataFrame :=
  match read_csv fs path with
  | .ok df => .ok df
  | .error _ => .error [RenderItem.errorMsg (loadErrMsg path)]

/-- Line 24, `df_clustered['Cluster'] = df_clustered['Cluster'].astype(str)`:
stringify the cluster column in place; raises `KeyError` when `Cluster`
is absent. -/
def prepare (df : DataFrame) : Except String DataFrame :=
  if "Cluster" ∈ df.cols then
    .ok ⟨df.cols, df.rows.map (fun r =>
      r.set (df.cols.indexOf "Cluster")
        (Value.str (pyStr (r.getD (df.cols.indexOf "Cluster") (Value.str "")))))⟩
  else
    .error "KeyError: Cluster"

/-- The items of the sidebar cluster summary given the sorted counts
(lines 37-48): the label, the sidebar dataframe and the distribution
bar chart, all showing `cluster_counts`. -/
def clusterSummaryItems (counts : List (String × ℕ)) : List RenderItem :=
  [ .text "Number of Recipes per Cluster:",
    .sidebarTable counts,
    .barChartN "Distribution of Recipes by Cluster" counts ]

/-- Lines 36-48: `cluster_counts = df_clustered['Cluster'].value_counts().sort_index()`
shown in the sidebar and as a bar chart.  Computed on the full table,
before the selectbox exists. -/
def clusterSummarySection (df : DataFrame) : Except String (List RenderItem) :=
  match getCol df "Cluster" with
  | .error e => .error e
  | .ok col => .ok (clusterSummaryItems (countsSortIndex (col.map pyStr)))

/-- Lines 60-65: `display_data` is the full table when the selectbox
returned the sentinel `'All'`, otherwise the boolean-mask filter
`df_clustered[df_clustered['Cluster'] == selected_cluster_id]`. -/
def displayData (df : DataFrame) (sel : String) : Except String DataFrame :=
  if sel == "All" then .ok df
  else
    match getCol df "Cluster" with
    | .error e => .error e
    | .ok col =>
      .ok ⟨df.cols,
        ((df.rows.zip (col.map (fun v => v == Value.str sel))).filterMap
          (fun p => if p.2 then some p.1 else none))⟩

/-- Lines 62 and 65: the chart-title suffix. -/
def chartSuffix (sel : String) : String :=
  if sel == "All" then " (All Clusters)" else " (Cluster " ++ sel ++ ")"

/-- The five numeric nutrition columns averaged at lines 70 and 72. -/
def numericFeatureCols : List String :=
  ["calories", "carbohydrate", "sugar", "protein", "servings_numeric"]

/-- Line 70 (the `'All'` branch):
`display_data[[...]].mean()` over the five numeric columns. -/
def avgBranchAll (d : DataFrame) : Except String (List (String × ℚ)) :=
  numericFeatureCols.mapM (fun c =>
    match getCol d c with
    | .error e => .error e
    | .ok col => .ok (c, meanCol col))

/-- Line 72 (the `else` branch): textually the same computation as
line 70. -/
def avgBranchOther (d : DataFrame) : Except String (List (String × ℚ)) :=
  numericFeatureCols.mapM (fun c =>
    match getCol d c with
    | .error e => .error e
    | .ok col => .ok (c, meanCol col))

/-- Lines 67-85: the average-nutrition section; the branch on
`selected_cluster_id` (lines 69-72) is kept as in the source. -/
def avgSection (display : DataFrame) (sel suffix : String) :
    Except String (List RenderItem) :=
  match (if sel == "All" then avgBranchAll display else avgBranchOther display) with
  | .error e => .error e
  | .ok avg =>
    .ok [ .text ("Average Nutritional Values" ++ suffix),
          .barChartQ ("Average Nutritional Values" ++ suffix)
            (avg.map (fun p => (p.1, p.2))) ]

/-- Lines 87-99: `category_counts = display_data['category'].value_counts(normalize=True)`
shown as a bar chart. -/
def categorySection (display : DataFrame) (suffix : String) :
    Except String (List RenderItem) :=
  match getCol display "category" with
  | .error e => .error e
  | .ok col =>
    .ok [ .text ("Category Distribution" ++ suffix),
          .barChartQ ("Proportion of Recipe Categories" ++ suffix)
            ((valueCountsNorm col).map (fun p => (pyStr p.1, p.2))) ]

/-- The `st.info` message of line 117. -/
def trafficInfoMsg : String :=
  "The original 'high_traffic' column was not found in the loaded data for this visualization."

/-- Lines 101-136, the traffic section.  Column presence is tested on
`df_clustered` (the full table), values are taken from `display_data`:
if `high_traffic` is a column, its normalized counts become a pie chart;
otherwise `st.info` emits a notice and, when `high_traffic_High` exists,
a fallback pie chart is additionally built from the one-hot sums. -/
def trafficSectionRun (df display : DataFrame) (suffix : String) :
    Except String (List RenderItem) :=
  if "high_traffic" ∈ df.cols then
    match getCol display "high_traffic" with
    | .error e => .error e
    | .ok col =>
      .ok [ .text ("High Traffic Distribution" ++ suffix),
            .pieChart ("Proportion of Recipe Traffic" ++ suffix)
              ((valueCountsNorm col).map (fun p => (pyStr p.1, p.2))) ]
  else
    if "high_traffic_High" ∈ df.cols then
      match getCol display "high_traffic_High" with
      | .error e => .error e
      | .ok colH =>
        match (if "high_traffic_No_Traffic_Info" ∈ df.cols then
                 getCol display "high_traffic_No_Traffic_Info"
               else .ok []) with
        | .error e => .error e
        | .ok colN =>
          let highCount := sumCol colH
          let noInfoCount :=
            if "high_traffic_No_Traffic_Info" ∈ df.cols then sumCol colN
            else (display.rows.length : ℚ) - highCount
          .ok [ .text ("High Traffic Distribution" ++ suffix),
                .info trafficInfoMsg,
                .pieChart ("Proportion of Recipe Traffic" ++ suffix)
                  [("High Traffic", highCount), ("No Traffic Info", noInfoCount)] ]
    else
      .ok [ .text ("High Traffic Distribution" ++ suffix),
            .info trafficInfoMsg ]

/-- The hover columns that `px.scatter` dereferences at line 153
(`hover_data=['calories', 'protein', 'category', 'servings_numeric']`). -/
def pcaHoverCols : List String :=
  ["calories", "protein", "category", "servings_numeric"]

/-- Sequential column dereference, propagating the first `KeyError`. -/
def requireCols (df : DataFrame) : List String → Except String Unit
  | [] => .ok ()
  | c :: rest =>
    match getCol df c with
    | .error e => .error e
    | .ok _ => requireCols df rest

/-- The warning of line 158. -/
def pcaWarnMsg : String :=
  "PCA components (PC1, PC2) are not available in the loaded data file. To see this visualization, please ensure PCA components are saved in the CSV."

/-- The `st.write` label of line 160 (inside the PCA `else` branch). -/
def dbgLabel : String :=
  "Unique values in high_traffic for current display_data:"

/-- Title of the PCA scatter (line 151). -/
def pcaTitle : String := "Recipe Clusters Reduced with PCA"

/-- One scatter mark per row of the FULL table: `(PC1, PC2, Cluster)`
taken positionally from the three columns of `df_clustered`. -/
def pcaPoints (df : DataFrame) : List (ℚ × ℚ × String) :=
  let pc1 := (df.rows.map (fun r => cellAt df.cols r "PC1")).map valToRat
  let pc2 := (df.rows.map (fun r => cellAt df.cols r "PC2")).map valToRat
  let cl := (df.rows.map (fun r => cellAt df.cols r "Cluster")).map pyStr
  (pc1.zip (pc2.zip cl)).map (fun p => (p.1, p.2.1, p.2.2))

/-- Lines 145-160: the PCA section.  Both the presence test (line 145)
and the chart data (line 147) use `df_clustered`, the full unfiltered
table — not `display_data`.  `px.scatter` also dereferences the colour
and hover columns, raising `KeyError` when one is absent.  When either
projection column is missing, line 158 warns and line 160 writes the
debug label; no chart is built. -/
def pcaSectionRun (df : DataFrame) : Except String (List RenderItem) :=
  if "PC1" ∈ df.cols ∧ "PC2" ∈ df.cols then
    match getCol df "PC1" with
    | .error e => .error e
    | .ok _ =>
      match getCol df "PC2" with
      | .error e => .error e
      | .ok _ =>
        match getCol df "Cluster" with
        | .error e => .error e
        | .ok _ =>
          match requireCols df pcaHoverCols with
          | .error e => .error e
          | .ok _ => .ok [ .scatterChart pcaTitle (pcaPoints df) ]
  else
    .ok [ .warning pcaWarnMsg, .text dbgLabel ]

/-- Line 161, at top level of the script (column 0, OUTSIDE the `else`
of line 157): `st.write(display_data['high_traffic'].value_counts())`.
It dereferences `high_traffic` on every run, raising `KeyError` when the
column is absent. -/
def debugTailRun (display : DataFrame) : Except String (List RenderItem) :=
  match getCol display "high_traffic" with
  | .error e => .error e
  | .ok col =>
    .ok [ .countsOut ((valueCounts col).map (fun p => (pyStr p.1, p.2))) ]

/-- The rendered output, one field per script section in source order. -/
structure RenderOutput where
  clusterSummary : List RenderItem
  avg : List RenderItem
  category : List RenderItem
  traffic : List RenderItem
  pca : List RenderItem
  debugTail : List RenderItem
deriving DecidableEq, Repr

/-- Lines 26-161 (after the load and line 24's `astype`): one reactive
run of the script body on the prepared table `df` with selectbox value
`sel`.  An uncaught pandas exception aborts the run with its message. -/
def render (df : DataFrame) (sel : String) : Except String RenderOutput :=
  match clusterSummarySection df with
  | .error e => .error e
  | .ok summary =>
    match displayData df sel with
    | .error e => .error e
    | .ok display =>
      match avgSection display sel (chartSuffix sel) with
      | .error e => .error e
      | .ok avgItems =>
        match categorySection display (chartSuffix sel) with
        | .error e => .error e
        | .ok catItems =>
          match trafficSectionRun df display (chartSuffix sel) with
          | .error e => .error e
          | .ok trafficItems =>
            match pcaSectionRun df with
            | .error e => .error e
            | .ok pcaItems =>
              match debugTailRun display with
              | .error e => .error e
              | .ok dbgItems =>
                .ok ⟨summary, avgItems, catItems, trafficItems, pcaItems, dbgItems⟩

/-- One reactive run together with the value bound to `df_clustered`
when the script body finishes.  Every pandas operation the body uses
(`df[mask]`, `value_counts`, `mean`, `sum`, comparison series) returns a
new object; the body assigns columns only on derived frames
(`df_avg_numeric.columns`, `category_counts.columns`, ...), never on
`df_clustered` or `display_data`, so the source binding at the end of a
run is the one the run started from. -/
def renderRun (df : DataFrame) (sel : String) :
    Except String (RenderOutput × DataFrame) :=
  match render df sel with
  | .error e => .error e
  | .ok out => .ok (out, df)

/-- The outcome of the whole script: stopped at `st.stop` (showing the
items emitted so far), aborted by an uncaught exception, or completed. -/
inductive AppResult where
  | halted (shown : List RenderItem)
  | raised (err : String)
  | completed (out : RenderOutput)
deriving DecidableEq, Repr

/-- The whole script: `load_data` (stop on missing file), line 24's
`astype`, then the reactive body. -/
def app (fs : FileSystem) (sel : String) : AppResult :=
  match load_data fs csvPath with
  | .error items => .halted items
  | .ok df =>
    match prepare df with
    | .error e => .raised e
    | .ok dfc =>
      match render dfc sel with
      | .error e => .raised e
      | .ok out => .completed out

/-! ## Concrete tables used as witnesses and counterexamples -/

/-- A well-formed two-row table with every optional column present. -/
def sampleDf : DataFrame :=
  ⟨["Cluster", "calories", "carbohydrate", "sugar", "protein",
    "servings_numeric", "category", "high_traffic", "PC1", "PC2"],
   [[Value.str "0", Value.num 100, Value.num 10, Value.num 5, Value.num 7,
     Value.num 2, Value.str "Dessert", Value.str "High", Value.num 1, Value.num 2],
    [Value.str "1", Value.num 200, Value.num 20, Value.num 8, Value.num 9,
     Value.num 4, Value.str "Soup", Value.str "No_Traffic_Info", Value.num 3,
     Value.num 4]]⟩

/-- The `Cluster` column of `sampleDf`. -/
def sampleClusterCol : List Value := [Value.str "0", Value.str "1"]

/-- The `category` column of `sampleDf`. -/
def sampleCategoryCol : List Value := [Value.str "Dessert", Value.str "Soup"]

/-- A one-row table with all required columns but none of the optional
ones (`high_traffic`, one-hot traffic columns, `PC1`, `PC2`). -/
def noTrafficDf : DataFrame :=
  ⟨["Cluster", "calories", "carbohydrate", "sugar", "protein",
    "servings_numeric", "category"],
   [[Value.str "0", Value.num 100, Value.num 10, Value.num 5, Value.num 7,
     Value.num 2, Value.str "Dessert"]]⟩

/-- A table one of whose cluster labels is the literal string `All`,
colliding with the sentinel option of the selectbox. -/
def allLabelDf : DataFrame :=
  ⟨["Cluster"], [[Value.str "All"], [Value.str "0"]]⟩

/-- A table with the one-hot traffic column but no `high_traffic`. -/
def oheDf : DataFrame :=
  ⟨["Cluster", "high_traffic_High"], [[Value.str "0", Value.num 1]]⟩

/-- What the traffic section shows on `oheDf` (suffix left empty): the
section subheader, the line-117 notice, and the fallback pie chart. -/
def oheRunItems : List RenderItem :=
  match trafficSectionRun oheDf oheDf "" with
  | .ok items => items
  | .error _ => []

/-- The items of the PCA section when a projection column is missing. -/
def pcaMissingItems : List RenderItem :=
  [RenderItem.warning pcaWarnMsg, RenderItem.text dbgLabel]

/-- The output of a successful run on `sampleDf` with `All` selected. -/
def sampleRunOut : RenderOutput :=
  match render sampleDf "All" with
  | .ok o => o
  | .error _ => ⟨[], [], [], [], [], []⟩

/-- The output of a successful run on `sampleDf` with cluster `0`
selected. -/
def sampleRunOutZero : RenderOutput :=
  match render sampleDf "0" with
  | .ok o => o
  | .error _ => ⟨[], [], [], [], [], []⟩

/-! ## Helper lemmas -/

/-- A successful column access returns one cell per row. -/
lemma getCol_ok_length {df : DataFrame} {c : String} {col : List Value}
    (h : getCol df c = .ok col) : col.length = df.rows.length := by
  unfold getCol at h
  split at h
  · injection h with h'
    rw [← h', List.length_map]
  · cases h

/-- Pandas boolean-mask selection `rows[rows.map p]` is `List.filter p`. -/
lemma zipMask_filter {α : Type} (p : α → Bool) (rows : List α) :
    ((rows.zip (rows.map p)).filterMap
      (fun q => if q.2 then some q.1 else none)) = rows.filter p := by
  induction rows with
  | nil => rfl
  | cons a l ih =>
    simp only [List.map_cons, List.zip_cons_cons, List.filterMap_cons,
      List.filter_cons]
    cases h : p a <;> simp [h, ih]

/-- Summing `f x / n` over a list is summing `f x` and dividing once. -/
lemma sum_map_div {α : Type} (l : List α) (f : α → ℚ) (n : ℚ) :
    (l.map (fun x => f x / n)).sum = (l.map f).sum / n := by
  induction l with
  | nil => simp
  | cons a t ih => simp [ih, add_div]

/-- Casting a sum of naturals into `ℚ` distributes over the list. -/
lemma sum_map_natCast {α : Type} (l : List α) (f : α → ℕ) :
    (l.map (fun x => ((f x : ℕ) : ℚ))).sum = (((l.map f).sum : ℕ) : ℚ) := by
  induction l with
  | nil => simp
  | cons a t ih => simp [ih]

/-- The proportions of `value_counts(normalize=True)` sum to `1` on any
non-empty series. -/
lemma sum_valueCountsNorm (l : List Value) (h : l ≠ []) :
    ((valueCountsNorm l).map Prod.snd).sum = 1 := by
  have hperm : List.Perm
      ((valueCounts l).map (fun p => ((p.2 : ℚ) / (l.length : ℚ))))
      ((l.dedup.map (fun v => (v, l.count v))).map
        (fun p => ((p.2 : ℚ) / (l.length : ℚ)))) :=
    (List.perm_insertionSort _ _).map _
  have hsum := hperm.sum_eq
  unfold valueCountsNorm
  rw [List.map_map]
  have hcomp :
      (Prod.snd ∘ fun p : Value × ℕ => (p.1, (p.2 : ℚ) / (l.length : ℚ))) =
        fun p : Value × ℕ => ((p.2 : ℚ) / (l.length : ℚ)) := rfl
  rw [hcomp, hsum, List.map_map]
  have hcomp2 :
      ((fun p : Value × ℕ => ((p.2 : ℚ) / (l.length : ℚ))) ∘
        fun v => (v, l.count v)) =
        fun v => (((l.count v : ℕ) : ℚ) / (l.length : ℚ)) := rfl
  rw [hcomp2, sum_map_div, sum_map_natCast,
    List.sum_map_count_dedup_eq_length]
  have hn : ((l.length : ℕ) : ℚ) ≠ 0 := by
    exact_mod_cast fun h0 => h (List.length_eq_zero.mp h0)
  exact div_self hn

/-- The labels of `countsSortIndex` come out in ascending order. -/
lemma sorted_countsSortIndex (l : List String) :
    List.Sorted (fun a b => a ≤ b) ((countsSortIndex l).map Prod.fst) := by
  unfold countsSortIndex
  rw [List.map_map]
  have hcomp : (Prod.fst ∘ fun v : String => (v, l.count v)) = id := rfl
  rw [hcomp, List.map_id]
  exact List.sorted_insertionSort _ _

/-- Inversion of a successful run: each section succeeded and produced
the corresponding field of the output, with the chart sections of the
filtered view computed on `display_data` and the cluster summary and
PCA scatter computed on the full table. -/
lemma render_ok_parts {df : DataFrame} {sel : String} {o : RenderOutput}
    (h : render df sel = .ok o) :
    clusterSummarySection df = .ok o.clusterSummary ∧
    ∃ display, displayData df sel = .ok display ∧
      avgSection display sel (chartSuffix sel) = .ok o.avg ∧
      categorySection display (chartSuffix sel) = .ok o.category ∧
      trafficSectionRun df display (chartSuffix sel) = .ok o.traffic ∧
      pcaSectionRun df = .ok o.pca ∧
      debugTailRun display = .ok o.debugTail := by
  unfold render at h
  cases h1 : clusterSummarySection df <;> simp only [h1] at h
  case error e => cases h
  case ok summary =>
  cases h2 : displayData df sel <;> simp only [h2] at h
  case error e => cases h
  case ok display =>
  cases h3 : avgSection display sel (chartSuffix sel) <;> simp only [h3] at h
  case error e => cases h
  case ok avgItems =>
  cases h4 : categorySection display (chartSuffix sel) <;> simp only [h4] at h
  case error e => cases h
  case ok catItems =>
  cases h5 : trafficSectionRun df display (chartSuffix sel) <;>
    simp only [h5] at h
  case error e => cases h
  case ok trafficItems =>
  cases h6 : pcaSectionRun df <;> simp only [h6] at h
  case error e => cases h
  case ok pcaItems =>
  cases h7 : debugTailRun display <;> simp only [h7] at h
  case error e => cases h
  case ok dbgItems =>
  cases h
  exact ⟨rfl, display, rfl, h3, h4, h5, rfl, h7⟩

/-! ## The claims -/

/-- C1, counterexample: in a table whose cluster labels include the
literal string `All` (line 24 makes labels arbitrary strings), that
label is offered by the selectbox (`options = ['All'] + all_clusters`),
yet selecting it returns the FULL table (line 61), not just the rows
whose `Cluster` field equals `All` — so the claim as stated fails. -/
theorem claim_C1_counterexample :
    "All" ∈ allLabelDf.rows.map (fun r => pyStr (cellAt allLabelDf.cols r "Cluster")) ∧
    displayData allLabelDf "All" = Except.ok allLabelDf ∧
    allLabelDf.rows ≠ allLabelDf.rows.filter
      (fun r => cellAt allLabelDf.cols r "Cluster" == Value.str "All") := by
  refine ⟨by decide, rfl, by decide⟩

/-- C1 (amended): for every cluster label `L` other than the sentinel
string `All`, selecting `L` yields exactly the rows whose `Cluster`
field equals `L` (same columns, rows in order), and selecting the
sentinel `All` yields the full unfiltered table. -/
theorem claim_C1 (df : DataFrame) (L : String) (hC : "Cluster" ∈ df.cols)
    (hL : L ≠ "All") :
    displayData df L =
      .ok ⟨df.cols,
        df.rows.filter (fun r => cellAt df.cols r "Cluster" == Value.str L)⟩ ∧
    displayData df "All" = .ok df := by
  constructor
  · have hbeq : (L == "All") = false := beq_eq_false_iff_ne.mpr hL
    unfold displayData getCol
    rw [hbeq]
    simp only [Bool.false_eq_true, if_false, if_pos hC, List.map_map]
    rw [zipMask_filter]
    rfl
  · simp [displayData]

/-- C1 witness: the amended claim evaluated on `sampleDf` at label `0`. -/
theorem claim_C1_witness :
    displayData sampleDf "0" =
      .ok ⟨sampleDf.cols,
        sampleDf.rows.filter
          (fun r => cellAt sampleDf.cols r "Cluster" == Value.str "0")⟩ ∧
    displayData sampleDf "All" = .ok sampleDf :=
  claim_C1 sampleDf "0" (by decide) (by decide)

/-- C5: when neither `high_traffic` nor the one-hot `high_traffic_High`
column exists, the traffic section (lines 101-136) renders the
informational notice of line 117 and no chart. -/
theorem claim_C5 (df display : DataFrame) (suffix : String)
    (hT : "high_traffic" ∉ df.cols) (hH : "high_traffic_High" ∉ df.cols) :
    trafficSectionRun df display suffix =
      .ok [RenderItem.text ("High Traffic Distribution" ++ suffix),
           RenderItem.info trafficInfoMsg] ∧
    containsChart [RenderItem.text ("High Traffic Distribution" ++ suffix),
      RenderItem.info trafficInfoMsg] = false := by
  refine ⟨?_, rfl⟩
  unfold trafficSectionRun
  rw [if_neg hT, if_neg hH]

/-- C5 witness: the traffic section on the table with no traffic
columns at all. -/
theorem claim_C5_witness :
    trafficSectionRun noTrafficDf noTrafficDf " (All Clusters)" =
      .ok [RenderItem.text ("High Traffic Distribution" ++ " (All Clusters)"),
           RenderItem.info trafficInfoMsg] ∧
    containsChart [RenderItem.text ("High Traffic Distribution" ++ " (All Clusters)"),
      RenderItem.info trafficInfoMsg] = false :=
  claim_C5 noTrafficDf noTrafficDf " (All Clusters)" (by decide) (by decide)

/-- C6: when the CSV path is not on disk, `load_data` shows the
`st.error` message and `st.stop()` halts the script: the outcome is the
single error item and contains no chart or table section. -/
theorem claim_C6 (fs : FileSystem) (sel : String)
    (h : List.lookup csvPath fs = none) :
    app fs sel = .halted [RenderItem.errorMsg (loadErrMsg csvPath)] ∧
    [RenderItem.errorMsg (loadErrMsg csvPath)].filter isChartOrTable = [] := by
  refine ⟨?_, rfl⟩
  unfold app load_data read_csv
  rw [h]

/-- C6 witness: the empty filesystem. -/
theorem claim_C6_witness :
    app ([] : FileSystem) "All" =
      .halted [RenderItem.errorMsg (loadErrMsg csvPath)] ∧
    [RenderItem.errorMsg (loadErrMsg csvPath)].filter isChartOrTable = [] :=
  claim_C6 [] "All" rfl

/-- C10: lines 70 and 72 are the same function of `display_data`: the
two branch bodies are extensionally equal, so the average-nutrition
result depends only on the view, not on which branch of the
`selected_cluster_id` test was taken. -/
theorem claim_C10 (d : DataFrame) (sel : String) :
    avgBranchAll d = avgBranchOther d ∧
    (if sel == "All" then avgBranchAll d else avgBranchOther d) =
      avgBranchAll d := by
  refine ⟨rfl, ?_⟩
  by_cases h : (sel == "All") = true
  · rw [if_pos h]
  · rw [if_neg h]
    rfl

/-- Each PCA scatter point comes from one row, so the zip of the three
equally-long columns has exactly one point per row. -/
lemma pcaPoints_length (df : DataFrame) :
    (pcaPoints df).length = df.rows.length := by
  unfold pcaPoints
  simp [List.length_zip]

/-- C2, evaluation at the failing input: on a table with every required
column but no `high_traffic` column, the run does NOT degrade to a
notice — line 161 (`st.write(display_data['high_traffic'].value_counts())`,
at column 0, outside every guard) dereferences the missing column and
the run aborts with an uncaught `KeyError`.  The script's own guarded
traffic section (lines 104-136) shows the graceful handling that was
intended. -/
theorem claim_C2 :
    "high_traffic" ∉ noTrafficDf.cols ∧
    render noTrafficDf "All" = .error "KeyError: high_traffic" ∧
    app [(csvPath, noTrafficDf)] "All" = .raised "KeyError: high_traffic" :=
  ⟨by decide, rfl, rfl⟩

/-- C3, counterexample: with `high_traffic` absent but the one-hot
column present, the traffic section emits the informational notice AND
shows the fallback chart — the notice is not reserved for the final
case, because line 117's `st.info` sits before the line 119 fallback
test, not inside its `else`. -/
theorem claim_C3_counterexample :
    "high_traffic" ∉ oheDf.cols ∧ "high_traffic_High" ∈ oheDf.cols ∧
    trafficSectionRun oheDf oheDf "" = .ok oheRunItems ∧
    containsInfo oheRunItems = true ∧ containsChart oheRunItems = true :=
  ⟨by decide, by decide, rfl, rfl, rfl⟩

/-- C3 (amended): the traffic section charts the `high_traffic`
frequencies when the column is present; otherwise it ALWAYS emits the
informational notice, and in addition shows the one-hot fallback chart
when `high_traffic_High` exists; a chart is absent exactly when neither
column exists. -/
theorem claim_C3 (df display : DataFrame) (suffix : String)
    (hcols : display.cols = df.cols) (items : List RenderItem)
    (h : trafficSectionRun df display suffix = .ok items) :
    (containsInfo items = true ↔ "high_traffic" ∉ df.cols) ∧
    (containsChart items = true ↔
      ("high_traffic" ∈ df.cols ∨ "high_traffic_High" ∈ df.cols)) := by
  by_cases hT : "high_traffic" ∈ df.cols
  · have hT' : "high_traffic" ∈ display.cols := by rw [hcols]; exact hT
    unfold trafficSectionRun getCol at h
    simp only [if_pos hT, if_pos hT'] at h
    cases h
    constructor
    · simp [containsInfo, hT]
    · simp [containsChart, hT]
  · by_cases hH : "high_traffic_High" ∈ df.cols
    · have hH' : "high_traffic_High" ∈ display.cols := by rw [hcols]; exact hH
      unfold trafficSectionRun getCol at h
      by_cases hN : "high_traffic_No_Traffic_Info" ∈ df.cols
      · have hN' : "high_traffic_No_Traffic_Info" ∈ display.cols := by
          rw [hcols]; exact hN
        simp only [if_neg hT, if_pos hH, if_pos hH', if_pos hN, if_pos hN']
          at h
        cases h
        constructor
        · simp [containsInfo, hT]
        · simp [containsChart, hH]
      · simp only [if_neg hT, if_pos hH, if_pos hH', if_neg hN] at h
        cases h
        constructor
        · simp [containsInfo, hT]
        · simp [containsChart, hH]
    · unfold trafficSectionRun at h
      simp only [if_neg hT, if_neg hH] at h
      cases h
      constructor
      · simp [containsInfo, hT]
      · simp [containsChart, hT, hH]

/-- C3 witness: the amended claim evaluated on the one-hot-only table. -/
theorem claim_C3_witness :
    (containsInfo oheRunItems = true ↔ "high_traffic" ∉ oheDf.cols) ∧
    (containsChart oheRunItems = true ↔
      ("high_traffic" ∈ oheDf.cols ∨ "high_traffic_High" ∈ oheDf.cols)) :=
  claim_C3 oheDf oheDf "" rfl oheRunItems rfl

/-- C4: when `PC1` and `PC2` (and the columns the chart dereferences)
are present, the PCA section yields one scatter chart with exactly one
point per row of the FULL table; when either projection column is
absent it yields the warning (and the stray debug label) and no chart;
and whatever the selection, a successful run's PCA items are those of
the full table — the filter never reaches this section. -/
theorem claim_C4 (df : DataFrame) :
    (∀ (_ : "PC1" ∈ df.cols) (_ : "PC2" ∈ df.cols) (_ : "Cluster" ∈ df.cols)
        (_ : requireCols df pcaHoverCols = .ok ()),
      pcaSectionRun df = .ok [RenderItem.scatterChart pcaTitle (pcaPoints df)] ∧
      (pcaPoints df).length = df.rows.length) ∧
    (∀ (_ : ¬("PC1" ∈ df.cols ∧ "PC2" ∈ df.cols)),
      pcaSectionRun df = .ok pcaMissingItems ∧
      containsChart pcaMissingItems = false) ∧
    (∀ sel o, render df sel = .ok o → pcaSectionRun df = .ok o.pca) := by
  refine ⟨?_, ?_, ?_⟩
  · intro h1 h2 hc hh
    refine ⟨?_, pcaPoints_length df⟩
    unfold pcaSectionRun getCol
    simp only [if_pos (And.intro h1 h2), if_pos h1, if_pos h2, if_pos hc, hh]
  · intro h
    unfold pcaSectionRun
    rw [if_neg h]
    exact ⟨rfl, rfl⟩
  · intro sel o h
    obtain ⟨-, d, -, -, -, -, hpca, -⟩ := render_ok_parts h
    exact hpca

/-- C4 witness: the PCA section on `sampleDf`, where everything is
present, and its agreement with a full run. -/
theorem claim_C4_witness :
    (pcaSectionRun sampleDf =
      .ok [RenderItem.scatterChart pcaTitle (pcaPoints sampleDf)] ∧
     (pcaPoints sampleDf).length = sampleDf.rows.length) ∧
    pcaSectionRun sampleDf = .ok sampleRunOut.pca :=
  ⟨(claim_C4 sampleDf).1 (by decide) (by decide) (by decide) rfl,
   (claim_C4 sampleDf).2.2 "All" sampleRunOut rfl⟩

/-- C7: the sidebar per-cluster counts and the cluster-distribution bar
chart are computed on the full table before the selectbox exists, so
two successful runs with different selections show identical cluster
summaries; and the counts are `value_counts().sort_index()` of the full
`Cluster` column, hence sorted ascending by label. -/
theorem claim_C7 (df : DataFrame) (sel₁ sel₂ : String) (o₁ o₂ : RenderOutput)
    (h₁ : render df sel₁ = .ok o₁) (h₂ : render df sel₂ = .ok o₂) :
    o₁.clusterSummary = o₂.clusterSummary ∧
    ∀ col, getCol df "Cluster" = .ok col →
      o₁.clusterSummary =
        clusterSummaryItems (countsSortIndex (col.map pyStr)) ∧
      List.Sorted (fun a b => a ≤ b)
        ((countsSortIndex (col.map pyStr)).map Prod.fst) := by
  have hs₁ := (render_ok_parts h₁).1
  have hs₂ := (render_ok_parts h₂).1
  constructor
  · exact Except.ok.inj (hs₁.symm.trans hs₂)
  · intro col hcol
    have hsec : clusterSummarySection df =
        .ok (clusterSummaryItems (countsSortIndex (col.map pyStr))) := by
      unfold clusterSummarySection
      rw [hcol]
    exact ⟨Except.ok.inj (hs₁.symm.trans hsec), sorted_countsSortIndex _⟩

/-- C7 witness: two runs on `sampleDf` with selections `All` and `0`. -/
theorem claim_C7_witness :
    sampleRunOut.clusterSummary = sampleRunOutZero.clusterSummary ∧
    (sampleRunOut.clusterSummary =
       clusterSummaryItems (countsSortIndex (sampleClusterCol.map pyStr)) ∧
     List.Sorted (fun a b => a ≤ b)
       ((countsSortIndex (sampleClusterCol.map pyStr)).map Prod.fst)) :=
  ⟨(claim_C7 sampleDf "All" "0" sampleRunOut sampleRunOutZero rfl rfl).1,
   (claim_C7 sampleDf "All" "0" sampleRunOut sampleRunOutZero rfl rfl).2
     sampleClusterCol rfl⟩

/-- C8: for any non-empty filtered view, the per-category proportions
of `value_counts(normalize=True)` (line 88) sum to exactly `1` as
rationals. -/
theorem claim_C8 (df d : DataFrame) (sel : String) (col : List Value)
    (_hd : displayData df sel = .ok d)
    (hc : getCol d "category" = .ok col) (hne : d.rows ≠ []) :
    ((valueCountsNorm col).map Prod.snd).sum = 1 := by
  have hlen : col.length = d.rows.length := getCol_ok_length hc
  have hcne : col ≠ [] := by
    intro h0
    apply hne
    apply List.length_eq_zero.mp
    rw [← hlen, h0]
    rfl
  exact sum_valueCountsNorm col hcne

/-- C8 witness: the category proportions of the unfiltered view of
`sampleDf` sum to `1`. -/
theorem claim_C8_witness :
    ((valueCountsNorm sampleCategoryCol).map Prod.snd).sum = 1 :=
  claim_C8 sampleDf sampleDf "All" sampleCategoryCol rfl rfl (by decide)

/-- C9: a run returns the source table it started from — the script
body only reads `df_clustered` (mask selection, `value_counts`, `mean`,
`sum` all return new objects; the script's column assignments touch
only derived frames), so every filter-driven re-run observes the same
rows, columns and values. -/
theorem claim_C9 (df : DataFrame) (sel : String) (out : RenderOutput)
    (dfEnd : DataFrame) (h : renderRun df sel = .ok (out, dfEnd)) :
    dfEnd.cols = df.cols ∧ dfEnd.rows = df.rows ∧
    ∀ sel₂, renderRun dfEnd sel₂ = renderRun df sel₂ := by
  unfold renderRun at h
  cases hr : render df sel <;> simp only [hr] at h
  case error e => cases h
  case ok o =>
    injection h with h'
    injection h' with ha hb
    subst hb
    exact ⟨rfl, rfl, fun _ => rfl⟩

/-- C9 witness: a run on `sampleDf` with `All` selected ends with the
table it started from, and a re-run with cluster `0` selected sees the
same table. -/
theorem claim_C9_witness :
    sampleDf.cols = sampleDf.cols ∧ sampleDf.rows = sampleDf.rows ∧
    renderRun sampleDf "0" = renderRun sampleDf "0" :=
  ⟨(claim_C9 sampleDf "All" sampleRunOut sampleDf rfl).1,
   (claim_C9 sampleDf "All" sampleRunOut sampleDf rfl).2.1,
   (claim_C9 sampleDf "All" sampleRunOut sampleDf rfl).2.2 "0"⟩
